import Mathlib

/-!
Shallow embedding of the ion-sdk-js signaling client (`src/proto.ts`).

The TypeScript `Client` class keeps a room id (`rid`), an optional room
token, a list of published `LocalStream` handles, a map `streams` from
`mid` to the subscribed `RemoteStream` handle, and a registry
`knownStreams` from `mid` to a track map.  JavaScript maps and objects
are embedded as association lists over `String` keys; JavaScript
truthiness of optional strings (`if (mid)`, `if (token)`, `if (!this.rid)`)
is embedded by `truthy`, which is false both for an absent string and for
the empty string.  A thrown JavaScript exception is embedded as a
`JsError` carried in the result record together with the side effects
(state mutations, emitted events, close calls) that happened before the
throw.
-/

/-- `TrackInfo` from `proto.ts`: one media elementary stream. -/
structure TrackInfo where
  id : Option String := none
  ssrc : Option Nat := none
  pt : Option Nat := none
  type : String
  codec : Option String := none
  fmtp : Option String := none
deriving DecidableEq, Repr

/-- `MediaStreamInfo` from `proto.ts`.  The `tracks` object maps a track
name to a single `TrackInfo` object; it is embedded as an association
list. -/
structure MediaStreamInfo where
  rid : String := ""
  mid : Option String := none
  uid : String
  info : Option String := none
  tracks : Option (List (String × TrackInfo)) := none
  description : Option String := none
deriving DecidableEq, Repr

/-- `Notification` from `proto.ts`. -/
structure Notification where
  method : String
  data : MediaStreamInfo
deriving DecidableEq, Repr

/-- JavaScript truthiness of an optional string: `undefined` and the
empty string are falsy, every other string is truthy. -/
def truthy : Option String → Bool
  | none => false
  | some s => !(s == "")

/-- A thrown JavaScript error: either a `TypeError` raised by the runtime
or an `Error` constructed with a message by the client code. -/
inductive JsError where
  | typeError (msg : String)
  | error (msg : String)
deriving DecidableEq, Repr

/-- The value stored for one track name in the registry.  At runtime the
code stores whatever `objToStrMap` copied out of the `tracks` object, so
the value universe must distinguish a single `TrackInfo` object (`obj`)
from an array of them (`arr`), which is what the declared type
`Map<string, TrackInfo[]>` promises. -/
inductive JsTrackVal where
  | obj (t : TrackInfo)
  | arr (ts : List TrackInfo)
deriving DecidableEq, Repr

/-- The inner registry map: track name to stored value. -/
abbrev TrackMap := List (String × JsTrackVal)

/-- The registry `knownStreams`: `mid` to track map. -/
abbrev Registry := List (String × TrackMap)

/-- The seven values of the web-platform `RTCIceConnectionState` union
returned by `getIceConnectionState` (all are nonempty strings, hence
truthy in JavaScript). -/
inductive IceState where
  | new
  | checking
  | connected
  | completed
  | disconnected
  | failed
  | closed
deriving DecidableEq, Repr

/-- A published local stream handle.  `handleId` stands for the object
identity of the handle; `mid` and the ICE connection state are owned by
the media-transport collaborator and are inputs to this model. -/
structure LocalStream where
  handleId : Nat
  mid : Option String := none
  iceState : Option IceState := none
deriving DecidableEq, Repr

/-- A subscribed remote stream handle. -/
structure RemoteStream where
  handleId : Nat
  mid : Option String := none
  iceState : Option IceState := none
deriving DecidableEq, Repr

/-- The mutable state of a `Client` instance. -/
structure ClientState where
  rid : Option String := none
  roomToken : Option String := none
  localStreams : List LocalStream := []
  streams : List (String × RemoteStream) := []
  knownStreams : Registry := []
  listenersAttached : Bool := true
  dispatchClosed : Bool := false
deriving DecidableEq, Repr

/-- The state of a freshly constructed client. -/
def initState : ClientState := {}

/-- Events emitted with `this.emit`; only the stream/peer level events
appear here, the transport events do not concern any claim. -/
inductive Event where
  | streamAdd (mid : Option String) (uid : String) (info : Option String)
      (description : Option String)
  | streamRemove (stream : Option RemoteStream) (uid : String)
  | peerJoin (uid : String) (info : Option String)
  | peerLeave (uid : String)
  | broadcastEv (uid : String) (info : Option String)
deriving DecidableEq, Repr

/-- `Map.prototype.set` and object property assignment: overwrite the
value when the key already exists (keeping its position), append
otherwise. -/
def setAssoc {β : Type} : List (String × β) → String → β → List (String × β)
  | [], k, v => [(k, v)]
  | p :: rest, k, v => if p.1 = k then (k, v) :: rest else p :: setAssoc rest k v

/-- `Map.prototype.get` and object property lookup. -/
def lookupAssoc {β : Type} : List (String × β) → String → Option β
  | [], _ => none
  | p :: rest, k => if p.1 = k then some p.2 else lookupAssoc rest k

/-- The `delete` operator: remove the key. -/
def eraseAssoc {β : Type} : List (String × β) → String → List (String × β)
  | [], _ => []
  | p :: rest, k => if p.1 = k then eraseAssoc rest k else p :: eraseAssoc rest k

/-- `objToStrMap` from `proto.ts`: copy each own key of the object into a
fresh map, values unchanged.  `Object.keys` applied to `undefined` throws
a `TypeError` before anything is copied. -/
def objToStrMap : Option (List (String × TrackInfo)) → Except JsError TrackMap
  | none => Except.error (JsError.typeError "Object.keys called on undefined")
  | some l => Except.ok (l.map (fun p => (p.1, JsTrackVal.obj p.2)))

/-- The track map `objToStrMap` produces from a present `tracks` object:
each track name mapped to the single `TrackInfo` object stored in the
source object (not wrapped in an array). -/
def tracksAsMap (tracks : Option (List (String × TrackInfo))) : TrackMap :=
  (tracks.getD []).map (fun p => (p.1, JsTrackVal.obj p.2))

/-- Result of running a notification handler: the state after it
returned or threw, the events emitted before that point, the remote
handles on which `close()` was invoked, and the error if it threw. -/
structure HandlerResult where
  state : ClientState
  events : List Event
  closedRemote : List RemoteStream
  error : Option JsError
deriving DecidableEq, Repr

/-- The `stream-add` branch of `onNotification`: when `mid` is truthy,
build the track map (which may throw on an absent `tracks` object) and
overwrite the registry entry; the emit sits outside the `if (mid)`
guard, so the event is emitted even for a falsy `mid`. -/
def streamAddStep (s : ClientState) (d : MediaStreamInfo) : HandlerResult :=
  if truthy d.mid then
    match objToStrMap d.tracks with
    | Except.error e => { state := s, events := [], closedRemote := [], error := some e }
    | Except.ok tm =>
      { state := { s with knownStreams := setAssoc s.knownStreams (d.mid.getD "") tm },
        events := [Event.streamAdd d.mid d.uid d.info d.description],
        closedRemote := [], error := none }
  else
    { state := s, events := [Event.streamAdd d.mid d.uid d.info d.description],
      closedRemote := [], error := none }

/-- The `stream-remove` branch of `onNotification`: look up
`this.streams[mid!]` (an absent `mid` indexes the property named
"undefined"), emit with whatever was found, then call `close()` on it —
which throws a `TypeError` when the lookup found nothing, so the
`delete` never runs in that case. -/
def streamRemoveStep (s : ClientState) (d : MediaStreamInfo) : HandlerResult :=
  match lookupAssoc s.streams (d.mid.getD "undefined") with
  | some h =>
    { state := { s with streams := eraseAssoc s.streams (d.mid.getD "undefined") },
      events := [Event.streamRemove (some h) d.uid], closedRemote := [h], error := none }
  | none =>
    { state := s, events := [Event.streamRemove none d.uid], closedRemote := [],
      error := some (JsError.typeError "close called on undefined") }

/-- `onNotification`: dispatch on the method string; unrecognized
methods do nothing. -/
def onNotification (s : ClientState) (n : Notification) : HandlerResult :=
  if n.method = "peer-join" then
    { state := s, events := [Event.peerJoin n.data.uid n.data.info],
      closedRemote := [], error := none }
  else if n.method = "peer-leave" then
    { state := s, events := [Event.peerLeave n.data.uid], closedRemote := [], error := none }
  else if n.method = "stream-add" then streamAddStep s n.data
  else if n.method = "stream-remove" then streamRemoveStep s n.data
  else if n.method = "broadcast" then
    { state := s, events := [Event.broadcastEv n.data.uid n.data.info],
      closedRemote := [], error := none }
  else { state := s, events := [], closedRemote := [], error := none }

/-- Result of `join`: final state, events emitted while processing the
response, and the error rethrown by the `catch` block, if any. -/
structure JoinResult where
  state : ClientState
  events : List Event
  error : Option JsError
deriving DecidableEq, Repr

/-- The assignments `join` performs before awaiting the signaling
request: `this.rid = rid` unconditionally, and `this.roomToken = token`
only when the token argument is truthy. -/
def joinStart (s : ClientState) (rid : String) (token : Option String) : ClientState :=
  { s with rid := some rid, roomToken := if truthy token then token else s.roomToken }

/-- The response to a `join` request; `pubs` may be absent. -/
structure JoinResponse where
  pubs : Option (List MediaStreamInfo) := none
deriving DecidableEq, Repr

/-- The `pubs.forEach` loop in `join`: for each descriptor with a truthy
`mid`, build the track map (throwing on an absent `tracks` object, which
aborts the loop), overwrite the registry entry and emit `stream-add`;
descriptors with a falsy `mid` are skipped entirely. -/
def processPubs : ClientState → List MediaStreamInfo → ClientState × List Event × Option JsError
  | s, [] => (s, [], none)
  | s, p :: rest =>
    if truthy p.mid then
      match objToStrMap p.tracks with
      | Except.error e => (s, [], some e)
      | Except.ok tm =>
        let s2 : ClientState :=
          { s with knownStreams := setAssoc s.knownStreams (p.mid.getD "") tm }
        let r := processPubs s2 rest
        (r.1, Event.streamAdd p.mid p.uid p.info p.description :: r.2.1, r.2.2)
    else processPubs s rest

/-- One step of the registry fold performed by the `pubs` loop. -/
def pubStep (reg : Registry) (p : MediaStreamInfo) : Registry :=
  if truthy p.mid then setAssoc reg (p.mid.getD "") (tracksAsMap p.tracks) else reg

/-- The registry after the `pubs` loop ran over `pubs` starting from `reg`. -/
def pubsRegistry (reg : Registry) (pubs : List MediaStreamInfo) : Registry :=
  pubs.foldl pubStep reg

/-- The `stream-add` event the `pubs` loop emits for one descriptor, if any. -/
def pubEvent (p : MediaStreamInfo) : Option Event :=
  if truthy p.mid then some (Event.streamAdd p.mid p.uid p.info p.description) else none

/-- The events the `pubs` loop emits, in order. -/
def pubsEvents (pubs : List MediaStreamInfo) : List Event :=
  pubs.filterMap pubEvent

/-- `join(rid, info, token?)`: assign `rid`/token, await the request
(whose outcome is an input to this model), then process `data.pubs` when
present; any error — a rejected request or a throw inside the loop — is
rethrown unchanged by the `catch` block. -/
def join (s : ClientState) (rid : String) (token : Option String)
    (outcome : Except JsError JoinResponse) : JoinResult :=
  let s1 := joinStart s rid token
  match outcome with
  | Except.error e => { state := s1, events := [], error := some e }
  | Except.ok resp =>
    match resp.pubs with
    | none => { state := s1, events := [], error := none }
    | some pubs =>
      let r := processPubs s1 pubs
      { state := r.1, events := r.2.1, error := r.2.2 }

/-- `publish(stream)`: throw before any state change when `this.rid` is
falsy, otherwise push the handle onto `localStreams` before awaiting the
handle's own publish call. -/
def publish (s : ClientState) (stream : LocalStream) : ClientState × Option JsError :=
  if truthy s.rid then
    ({ s with localStreams := s.localStreams ++ [stream] }, none)
  else (s, some (JsError.error "You must join a room before publishing."))

/-- `unpublish(stream)`: throw on an undefined argument, otherwise drop
the handle from `localStreams` by object identity. -/
def unpublish (s : ClientState) (stream : Option LocalStream) : ClientState × Option JsError :=
  match stream with
  | none => (s, some (JsError.error "Undefined LocalStream in unpublish."))
  | some st =>
    ({ s with localStreams := s.localStreams.filter (fun l => !(l.handleId == st.handleId)) },
     none)

deriving instance DecidableEq for Except

/-- Result of `subscribe`: the state, the returned stream or thrown
error, and the remote handles on which `close()` was invoked (always
none — an overwritten prior subscription is not closed). -/
structure SubscribeResult where
  state : ClientState
  result : Except JsError RemoteStream
  closedRemote : List RemoteStream
deriving DecidableEq, Repr

/-- `subscribe(mid)`: throw when `this.rid` is falsy; throw when the
registry holds no entry for `mid`; otherwise store the `RemoteStream`
materialized by the media collaborator (`media`, an input to this
model) under `mid` and return it. -/
def subscribe (s : ClientState) (mid : String) (media : RemoteStream) : SubscribeResult :=
  if truthy s.rid then
    match lookupAssoc s.knownStreams mid with
    | none =>
      { state := s, result := Except.error (JsError.error "Subscribe mid is not known."),
        closedRemote := [] }
    | some _ =>
      { state := { s with streams := setAssoc s.streams mid media },
        result := Except.ok media, closedRemote := [] }
  else
    { state := s, result := Except.error (JsError.error "You must join a room before subscribing."),
      closedRemote := [] }

/-- Result of `close`: the state afterwards and the handles whose
`close()` was invoked. -/
structure CloseResult where
  state : ClientState
  closedLocal : List LocalStream
  closedRemote : List RemoteStream
deriving DecidableEq, Repr

/-- `close()`: call `close()` on every local and remote handle whose
`mid` is truthy, then clear `localStreams`, `streams` and the registry,
remove all listeners and close the signaling peer.  `rid` and the room
token are not reset. -/
def close (s : ClientState) : CloseResult :=
  { state := { s with
      localStreams := []
      streams := []
      knownStreams := []
      listenersAttached := false
      dispatchClosed := true },
    closedLocal := s.localStreams.filter (fun l => truthy l.mid),
    closedRemote := (s.streams.map Prod.snd).filter (fun r => truthy r.mid) }

/-- `leave()`: the request outcome is swallowed; the state effect is
exactly that of the unconditional `close()` call. -/
def leave (s : ClientState) : CloseResult := close s

/-- The list of ICE connection states `isStreamIceConnected` inspects:
those of the local handles when `isLocal`, of the subscribed remote
handles otherwise. -/
def selectedIce (s : ClientState) (isLocal : Bool) : List (Option IceState) :=
  if isLocal then s.localStreams.map LocalStream.iceState
  else s.streams.map (fun p => p.2.iceState)

/-- The `failedStatuses` array. -/
def failedStatuses : List IceState := [IceState.closed, IceState.disconnected, IceState.failed]

/-- The per-handle test of the loop body: a missing state forces the
accumulator to false, otherwise the state must avoid `failedStatuses`. -/
def iceOk : Option IceState → Bool
  | some st => !(failedStatuses.contains st)
  | none => false

/-- `isStreamIceConnected(local)`: fold the loop body over the selected
handle set starting from `true`. -/
def isStreamIceConnected (s : ClientState) (isLocal : Bool) : Bool :=
  (selectedIce s isLocal).foldl (fun connected st => connected && iceOk st) true

/-- `streamsConnected()`. -/
def streamsConnected (s : ClientState) : Bool :=
  isStreamIceConnected s true && isStreamIceConnected s false

/-- The states a client can be in after any sequence of completed
operations, each operation taken as atomic (the single-threaded
event-loop model of the source, with the collaborator results —
request outcomes, materialized media — as inputs). -/
inductive Reachable : ClientState → Prop where
  | init : Reachable initState
  | joinStep (s : ClientState) (rid : String) (token : Option String)
      (outcome : Except JsError JoinResponse) :
      Reachable s → Reachable (join s rid token outcome).state
  | publishStep (s : ClientState) (stream : LocalStream) :
      Reachable s → Reachable (publish s stream).1
  | unpublishStep (s : ClientState) (stream : Option LocalStream) :
      Reachable s → Reachable (unpublish s stream).1
  | subscribeStep (s : ClientState) (mid : String) (media : RemoteStream) :
      Reachable s → Reachable (subscribe s mid media).state
  | notifStep (s : ClientState) (n : Notification) :
      Reachable s → Reachable (onNotification s n).state
  | leaveStep (s : ClientState) : Reachable s → Reachable (leave s).state
  | closeStep (s : ClientState) : Reachable s → Reachable (close s).state

/-- The subscription invariant: every key of the subscribed-stream map
is also a key of the registry. -/
def streamsSubsetKnown (s : ClientState) : Prop :=
  ∀ k : String, (lookupAssoc s.streams k).isSome = true →
    (lookupAssoc s.knownStreams k).isSome = true

/-! Helper lemmas about the association-list operations. -/

theorem lookupAssoc_set_self {β : Type} (l : List (String × β)) (k : String) (v : β) :
    lookupAssoc (setAssoc l k v) k = some v := by
  induction l with
  | nil => simp [setAssoc, lookupAssoc]
  | cons p rest ih =>
    by_cases h : p.1 = k
    · simp [setAssoc, lookupAssoc, h]
    · simp [setAssoc, lookupAssoc, h, ih]

theorem lookupAssoc_set_ne {β : Type} (l : List (String × β)) (k k' : String) (v : β)
    (h : k' ≠ k) : lookupAssoc (setAssoc l k v) k' = lookupAssoc l k' := by
  induction l with
  | nil => simp [setAssoc, lookupAssoc, Ne.symm h]
  | cons p rest ih =>
    by_cases hp : p.1 = k
    · simp [setAssoc, lookupAssoc, hp, Ne.symm h]
    · simp [setAssoc, lookupAssoc, hp, ih]

theorem lookupAssoc_erase_self {β : Type} (l : List (String × β)) (k : String) :
    lookupAssoc (eraseAssoc l k) k = none := by
  induction l with
  | nil => simp [eraseAssoc, lookupAssoc]
  | cons p rest ih =>
    by_cases hp : p.1 = k
    · simp [eraseAssoc, hp, ih]
    · simp [eraseAssoc, lookupAssoc, hp, ih]

theorem lookupAssoc_erase_ne {β : Type} (l : List (String × β)) (k k' : String)
    (h : k' ≠ k) : lookupAssoc (eraseAssoc l k) k' = lookupAssoc l k' := by
  induction l with
  | nil => simp [eraseAssoc]
  | cons p rest ih =>
    by_cases hp : p.1 = k
    · simp [eraseAssoc, lookupAssoc, hp, Ne.symm h, ih]
    · by_cases hp' : p.1 = k'
      · simp [eraseAssoc, lookupAssoc, hp, hp', h]
      · simp [eraseAssoc, lookupAssoc, hp, hp', ih]

theorem lookupAssoc_erase_isSome {β : Type} (l : List (String × β)) (k k' : String)
    (h : (lookupAssoc (eraseAssoc l k) k').isSome = true) :
    (lookupAssoc l k').isSome = true := by
  by_cases hk : k' = k
  · subst hk; rw [lookupAssoc_erase_self] at h; simp at h
  · rwa [lookupAssoc_erase_ne l k k' hk] at h

theorem lookupAssoc_set_isSome {β : Type} (l : List (String × β)) (k k' : String) (v : β)
    (h : (lookupAssoc l k').isSome = true) :
    (lookupAssoc (setAssoc l k v) k').isSome = true := by
  by_cases hk : k' = k
  · subst hk; simp [lookupAssoc_set_self]
  · rwa [lookupAssoc_set_ne l k k' v hk]

theorem objToStrMap_isSome (tracks : Option (List (String × TrackInfo)))
    (h : tracks.isSome = true) : objToStrMap tracks = Except.ok (tracksAsMap tracks) := by
  cases tracks with
  | none => simp at h
  | some l => simp [objToStrMap, tracksAsMap]

theorem onNotification_stream_add (s : ClientState) (d : MediaStreamInfo) :
    onNotification s { method := "stream-add", data := d } = streamAddStep s d := by
  rfl

theorem onNotification_stream_remove (s : ClientState) (d : MediaStreamInfo) :
    onNotification s { method := "stream-remove", data := d } = streamRemoveStep s d := by
  rfl

/-! Characterizations of the `pubs` processing loop. -/

theorem processPubs_ok (s : ClientState) (pubs : List MediaStreamInfo)
    (h : ∀ p ∈ pubs, truthy p.mid = true → p.tracks.isSome = true) :
    processPubs s pubs =
      ({ s with knownStreams := pubsRegistry s.knownStreams pubs }, pubsEvents pubs, none) := by
  induction pubs generalizing s with
  | nil => rfl
  | cons p rest ih =>
    have hrest : ∀ q ∈ rest, truthy q.mid = true → q.tracks.isSome = true :=
      fun q hq => h q (List.mem_cons_of_mem p hq)
    cases htr : truthy p.mid with
    | false =>
      simp only [processPubs, htr, Bool.false_eq_true, if_false]
      rw [ih _ hrest]
      simp [pubsRegistry, pubsEvents, pubStep, pubEvent, htr]
    | true =>
      have hts : p.tracks.isSome = true := h p (List.mem_cons_self p rest) htr
      simp only [processPubs, htr, if_true, objToStrMap_isSome p.tracks hts]
      rw [ih _ hrest]
      simp [pubsRegistry, pubsEvents, pubStep, pubEvent, htr]

theorem processPubs_err (s : ClientState) (pre : List MediaStreamInfo)
    (bad : MediaStreamInfo) (rest : List MediaStreamInfo)
    (hpre : ∀ p ∈ pre, truthy p.mid = true → p.tracks.isSome = true)
    (hb1 : truthy bad.mid = true) (hb2 : bad.tracks = none) :
    processPubs s (pre ++ bad :: rest) =
      ({ s with knownStreams := pubsRegistry s.knownStreams pre }, pubsEvents pre,
       some (JsError.typeError "Object.keys called on undefined")) := by
  induction pre generalizing s with
  | nil =>
    simp only [List.nil_append, processPubs, hb1, if_true, hb2, objToStrMap]
    simp [pubsRegistry, pubsEvents]
  | cons p pre' ih =>
    have hrest : ∀ q ∈ pre', truthy q.mid = true → q.tracks.isSome = true :=
      fun q hq => hpre q (List.mem_cons_of_mem p hq)
    cases htr : truthy p.mid with
    | false =>
      simp only [List.cons_append, processPubs, htr, Bool.false_eq_true, if_false,
        List.append_eq]
      rw [ih _ hrest]
      simp [pubsRegistry, pubsEvents, pubStep, pubEvent, htr]
    | true =>
      have hts : p.tracks.isSome = true := hpre p (List.mem_cons_self p pre') htr
      simp only [List.cons_append, processPubs, htr, if_true,
        objToStrMap_isSome p.tracks hts, List.append_eq]
      rw [ih _ hrest]
      simp [pubsRegistry, pubsEvents, pubStep, pubEvent, htr]

theorem processPubs_frame (s : ClientState) (pubs : List MediaStreamInfo) :
    (processPubs s pubs).1.rid = s.rid ∧
    (processPubs s pubs).1.roomToken = s.roomToken ∧
    (processPubs s pubs).1.streams = s.streams ∧
    (processPubs s pubs).1.localStreams = s.localStreams := by
  induction pubs generalizing s with
  | nil => exact ⟨rfl, rfl, rfl, rfl⟩
  | cons p rest ih =>
    cases htr : truthy p.mid with
    | false => simpa only [processPubs, htr, Bool.false_eq_true, if_false] using ih s
    | true =>
      cases hob : objToStrMap p.tracks with
      | error e => simp [processPubs, htr, hob]
      | ok tm =>
        simpa only [processPubs, htr, if_true, hob] using
          ih { s with knownStreams := setAssoc s.knownStreams (p.mid.getD "") tm }

theorem processPubs_known_mono (s : ClientState) (pubs : List MediaStreamInfo) (k : String)
    (h : (lookupAssoc s.knownStreams k).isSome = true) :
    (lookupAssoc (processPubs s pubs).1.knownStreams k).isSome = true := by
  induction pubs generalizing s with
  | nil => exact h
  | cons p rest ih =>
    cases htr : truthy p.mid with
    | false => simpa only [processPubs, htr, Bool.false_eq_true, if_false] using ih s h
    | true =>
      cases hob : objToStrMap p.tracks with
      | error e => simpa only [processPubs, htr, if_true, hob] using h
      | ok tm =>
        simpa only [processPubs, htr, if_true, hob] using
          ih { s with knownStreams := setAssoc s.knownStreams (p.mid.getD "") tm }
            (lookupAssoc_set_isSome s.knownStreams (p.mid.getD "") k tm h)

theorem pubsRegistry_mono (reg : Registry) (pubs : List MediaStreamInfo) (k : String)
    (h : (lookupAssoc reg k).isSome = true) :
    (lookupAssoc (pubsRegistry reg pubs) k).isSome = true := by
  induction pubs generalizing reg with
  | nil => exact h
  | cons p rest ih =>
    have hstep : (lookupAssoc (pubStep reg p) k).isSome = true := by
      unfold pubStep
      cases htr : truthy p.mid with
      | false => simpa using h
      | true =>
        simpa using lookupAssoc_set_isSome reg (p.mid.getD "") k (tracksAsMap p.tracks) h
    simpa only [pubsRegistry, List.foldl_cons] using ih (pubStep reg p) hstep

theorem pubsRegistry_mem (reg : Registry) (pubs : List MediaStreamInfo) (p : MediaStreamInfo)
    (hp : p ∈ pubs) (ht : truthy p.mid = true) :
    (lookupAssoc (pubsRegistry reg pubs) (p.mid.getD "")).isSome = true := by
  induction pubs generalizing reg with
  | nil => cases hp
  | cons q rest ih =>
    rcases List.mem_cons.mp hp with hq | hq
    · subst hq
      have hstep : (lookupAssoc (pubStep reg p) (p.mid.getD "")).isSome = true := by
        simp [pubStep, ht, lookupAssoc_set_self]
      simpa only [pubsRegistry, List.foldl_cons] using
        pubsRegistry_mono (pubStep reg p) rest (p.mid.getD "") hstep
    · simpa only [pubsRegistry, List.foldl_cons] using ih (pubStep reg q) hq

/-! Connectivity folding and the reachability invariant. -/

theorem foldl_and_iceOk (l : List (Option IceState)) (b : Bool) :
    l.foldl (fun connected st => connected && iceOk st) b = (b && l.all iceOk) := by
  induction l generalizing b with
  | nil => simp
  | cons st rest ih => simp [List.foldl_cons, ih, Bool.and_assoc]

theorem isStreamIceConnected_all (s : ClientState) (isLocal : Bool) :
    isStreamIceConnected s isLocal = (selectedIce s isLocal).all iceOk := by
  simp [isStreamIceConnected, foldl_and_iceOk]

theorem reachable_inv (s : ClientState) (h : Reachable s) : streamsSubsetKnown s := by
  induction h with
  | init => intro k hk; simp [initState, lookupAssoc] at hk
  | joinStep s rid token outcome hs ih =>
    intro k hk
    cases outcome with
    | error e =>
      simp only [join, joinStart] at hk ⊢
      exact ih k hk
    | ok resp =>
      cases hresp : resp.pubs with
      | none =>
        simp only [join, hresp, joinStart] at hk ⊢
        exact ih k hk
      | some pubs =>
        simp only [join, hresp] at hk ⊢
        have hfr := (processPubs_frame (joinStart s rid token) pubs).2.2.1
        rw [hfr] at hk
        have hbase : (lookupAssoc (joinStart s rid token).knownStreams k).isSome = true :=
          ih k hk
        exact processPubs_known_mono (joinStart s rid token) pubs k hbase
  | publishStep s stream hs ih =>
    intro k hk
    cases htr : truthy s.rid with
    | false => simp only [publish, htr, Bool.false_eq_true, if_false] at hk ⊢; exact ih k hk
    | true => simp only [publish, htr, if_true] at hk ⊢; exact ih k hk
  | unpublishStep s stream hs ih =>
    intro k hk
    cases stream with
    | none => exact ih k hk
    | some st => simp only [unpublish] at hk ⊢; exact ih k hk
  | subscribeStep s mid media hs ih =>
    intro k hk
    cases htr : truthy s.rid with
    | false =>
      simp only [subscribe, htr, Bool.false_eq_true, if_false] at hk ⊢
      exact ih k hk
    | true =>
      cases hlk : lookupAssoc s.knownStreams mid with
      | none => simp only [subscribe, htr, if_true, hlk] at hk ⊢; exact ih k hk
      | some tm =>
        simp only [subscribe, htr, if_true, hlk] at hk ⊢
        by_cases hkm : k = mid
        · subst hkm; simp [hlk]
        · rw [lookupAssoc_set_ne s.streams mid k media hkm] at hk
          exact ih k hk
  | notifStep s n hs ih =>
    intro k hk
    by_cases h1 : n.method = "peer-join"
    · simp only [onNotification, h1, if_true] at hk ⊢; exact ih k hk
    · by_cases h2 : n.method = "peer-leave"
      · simp only [onNotification, h1, h2, if_true, if_false] at hk ⊢; exact ih k hk
      · by_cases h3 : n.method = "stream-add"
        · simp only [onNotification, h1, h2, h3, if_true, if_false] at hk ⊢
          cases htr : truthy n.data.mid with
          | false =>
            simp only [streamAddStep, htr, Bool.false_eq_true, if_false] at hk ⊢
            exact ih k hk
          | true =>
            cases hob : objToStrMap n.data.tracks with
            | error e =>
              simp only [streamAddStep, htr, if_true, hob] at hk ⊢
              exact ih k hk
            | ok tm =>
              simp only [streamAddStep, htr, if_true, hob] at hk ⊢
              exact lookupAssoc_set_isSome s.knownStreams (n.data.mid.getD "") k tm (ih k hk)
        · by_cases h4 : n.method = "stream-remove"
          · simp only [onNotification, h1, h2, h3, h4, if_true, if_false] at hk ⊢
            cases hlk : lookupAssoc s.streams (n.data.mid.getD "undefined") with
            | none => simp only [streamRemoveStep, hlk] at hk ⊢; exact ih k hk
            | some hdl =>
              simp only [streamRemoveStep, hlk] at hk ⊢
              exact ih k (lookupAssoc_erase_isSome s.streams (n.data.mid.getD "undefined") k hk)
          · by_cases h5 : n.method = "broadcast"
            · simp only [onNotification, h1, h2, h3, h4, h5, if_true, if_false] at hk ⊢
              exact ih k hk
            · simp only [onNotification, h1, h2, h3, h4, h5, if_false] at hk ⊢
              exact ih k hk
  | leaveStep s hs ih =>
    intro k hk
    simp [leave, close, lookupAssoc] at hk
  | closeStep s hs ih =>
    intro k hk
    simp [close, lookupAssoc] at hk

/-- C3 (amended): processing a `stream-add` notification whose data has a
truthy (present and nonempty) `mid` and a present `tracks` object inserts or
overwrites the registry entry for that `mid` with the notification's track
mapping and then emits a `stream-add` event with `(mid, uid, info,
description)`; when `mid` is absent or empty, no registry mutation occurs
but the `stream-add` event is still emitted, carrying the falsy `mid`
(the emit sits outside the `if (mid)` guard in the source). -/
theorem c3_stream_add (s : ClientState) (d : MediaStreamInfo) :
    (truthy d.mid = true → d.tracks.isSome = true →
      onNotification s { method := "stream-add", data := d } =
        { state := { s with knownStreams := setAssoc s.knownStreams (d.mid.getD "") (tracksAsMap d.tracks) },
          events := [Event.streamAdd d.mid d.uid d.info d.description],
          closedRemote := [], error := none }) ∧
    (truthy d.mid = false →
      onNotification s { method := "stream-add", data := d } =
        { state := s, events := [Event.streamAdd d.mid d.uid d.info d.description],
          closedRemote := [], error := none }) := by
  constructor
  · intro ht hts
    rw [onNotification_stream_add]
    simp [streamAddStep, ht, objToStrMap_isSome d.tracks hts]
  · intro ht
    rw [onNotification_stream_add]
    simp [streamAddStep, ht]

/-- C3, witness: a concrete `stream-add` notification with a present `mid`
and one audio track updates the registry and emits the event. -/
theorem c3_stream_add_witness :
    onNotification initState
      { method := "stream-add",
        data := { rid := "r1", uid := "u2", mid := some "m1", tracks := some [("audio", { id := some "t1", type := "audio" })] } } =
      { state := { initState with knownStreams := setAssoc initState.knownStreams ((some "m1").getD "") (tracksAsMap (some [("audio", { id := some "t1", type := "audio" })])) },
        events := [Event.streamAdd (some "m1") "u2" none none],
        closedRemote := [], error := none } :=
  (c3_stream_add initState
    { rid := "r1", uid := "u2", mid := some "m1",
      tracks := some [("audio", { id := some "t1", type := "audio" })] }).1
    (by decide) (by decide)

/-- C3, counterexample to the claim as stated: a `stream-add` notification
with an absent `mid` still emits a `stream-add` event (with the undefined
`mid`), contradicting "neither a registry mutation nor an emission of the
stream-add event occurs". -/
theorem c3_cex :
    (onNotification initState
      { method := "stream-add", data := { rid := "r1", uid := "u9" } }).events =
      [Event.streamAdd none "u9" none none] ∧
    (onNotification initState
      { method := "stream-add", data := { rid := "r1", uid := "u9" } }).events ≠ [] ∧
    (onNotification initState
      { method := "stream-add", data := { rid := "r1", uid := "u9" } }).state =
      initState := by
  decide

/-- C4 (confirmed): a `stream-remove` notification whose `mid` is a key of
the subscribed-stream map emits a `stream-remove` event carrying the
subscribed handle and the notification's `uid`, invokes `close()` on
exactly that handle, and deletes the `mid` key from the subscribed-stream
map; the registry entry for that `mid`, the other subscriptions, the
local-stream list, `rid` and the room token are left unchanged. -/
theorem c4_stream_remove_subscribed (s : ClientState) (d : MediaStreamInfo)
    (m : String) (hdl : RemoteStream)
    (hm : d.mid = some m) (hs : lookupAssoc s.streams m = some hdl) :
    onNotification s { method := "stream-remove", data := d } =
      { state := { s with streams := eraseAssoc s.streams m },
        events := [Event.streamRemove (some hdl) d.uid],
        closedRemote := [hdl], error := none } ∧
    lookupAssoc (onNotification s { method := "stream-remove", data := d }).state.streams m
      = none ∧
    (∀ k, k ≠ m →
      lookupAssoc (onNotification s { method := "stream-remove", data := d }).state.streams k
        = lookupAssoc s.streams k) ∧
    (onNotification s { method := "stream-remove", data := d }).state.knownStreams
      = s.knownStreams ∧
    (onNotification s { method := "stream-remove", data := d }).state.localStreams
      = s.localStreams ∧
    (onNotification s { method := "stream-remove", data := d }).state.rid = s.rid ∧
    (onNotification s { method := "stream-remove", data := d }).state.roomToken
      = s.roomToken := by
  have key : onNotification s { method := "stream-remove", data := d } =
      { state := { s with streams := eraseAssoc s.streams m },
        events := [Event.streamRemove (some hdl) d.uid],
        closedRemote := [hdl], error := none } := by
    rw [onNotification_stream_remove]
    simp [streamRemoveStep, hm, hs]
  refine ⟨key, ?_, ?_, ?_, ?_, ?_, ?_⟩
  · rw [key]; exact lookupAssoc_erase_self s.streams m
  · intro k hk; rw [key]; exact lookupAssoc_erase_ne s.streams m k hk
  · rw [key]
  · rw [key]
  · rw [key]
  · rw [key]

/-- C4, witness: removing the subscribed stream "m1" from a concrete state
with two subscriptions and a registry entry for "m1". -/
theorem c4_stream_remove_subscribed_witness :
    (lookupAssoc
      ({ rid := some "r1",
         streams := [("m1", { handleId := 7, mid := some "m1" }),
                     ("m2", { handleId := 8, mid := some "m2" })],
         knownStreams := [("m1", [("audio", JsTrackVal.obj { id := some "t1", type := "audio" })])]
       } : ClientState).streams "m1" = some { handleId := 7, mid := some "m1" }) ∧
    onNotification
      { rid := some "r1",
        streams := [("m1", { handleId := 7, mid := some "m1" }),
                    ("m2", { handleId := 8, mid := some "m2" })],
        knownStreams := [("m1", [("audio", JsTrackVal.obj { id := some "t1", type := "audio" })])] }
      { method := "stream-remove", data := { rid := "r1", uid := "u2", mid := some "m1" } } =
      { state := { rid := some "r1",
                   streams := [("m2", { handleId := 8, mid := some "m2" })],
                   knownStreams :=
                     [("m1", [("audio", JsTrackVal.obj { id := some "t1", type := "audio" })])] },
        events := [Event.streamRemove (some { handleId := 7, mid := some "m1" }) "u2"],
        closedRemote := [{ handleId := 7, mid := some "m1" }], error := none } := by
  refine ⟨by decide, ?_⟩
  have h := (c4_stream_remove_subscribed
    { rid := some "r1",
      streams := [("m1", { handleId := 7, mid := some "m1" }),
                  ("m2", { handleId := 8, mid := some "m2" })],
      knownStreams := [("m1", [("audio", JsTrackVal.obj { id := some "t1", type := "audio" })])] }
    { rid := "r1", uid := "u2", mid := some "m1" } "m1" { handleId := 7, mid := some "m1" }
    (by decide) (by decide)).1
  rw [h]
  decide

/-- C9 (confirmed): a `stream-remove` notification for which the handle
lookup finds nothing (the `mid` is not a key of the subscribed-stream map;
an absent `mid` indexes the property named "undefined") first emits a
`stream-remove` event whose handle argument is undefined, then the
close-and-delete step fails at runtime — `close()` invoked on the missing
handle throws — leaving the subscribed-stream map and the registry (and
the whole state) unchanged. -/
theorem c9_stream_remove_missing (s : ClientState) (d : MediaStreamInfo)
    (h : lookupAssoc s.streams (d.mid.getD "undefined") = none) :
    onNotification s { method := "stream-remove", data := d } =
      { state := s, events := [Event.streamRemove none d.uid], closedRemote := [],
        error := some (JsError.typeError "close called on undefined") } := by
  rw [onNotification_stream_remove]
  simp [streamRemoveStep, h]

/-- C9, witness: a concrete `stream-remove` for an unsubscribed `mid`
emits with an undefined handle and throws, leaving the state unchanged. -/
theorem c9_stream_remove_missing_witness :
    onNotification
      { rid := some "r1",
        knownStreams := [("m1", [("audio", JsTrackVal.obj { id := some "t1", type := "audio" })])] }
      { method := "stream-remove", data := { rid := "r1", uid := "u2", mid := some "m1" } } =
      { state := { rid := some "r1",
                   knownStreams :=
                     [("m1", [("audio", JsTrackVal.obj { id := some "t1", type := "audio" })])] },
        events := [Event.streamRemove none "u2"], closedRemote := [],
        error := some (JsError.typeError "close called on undefined") } :=
  c9_stream_remove_missing
    { rid := some "r1",
      knownStreams := [("m1", [("audio", JsTrackVal.obj { id := some "t1", type := "audio" })])] }
    { rid := "r1", uid := "u2", mid := some "m1" } (by decide)

/-- C8: the registry stores, for each track name, exactly the value copied
out of the `tracks` object by `objToStrMap` — the single `TrackInfo`
object, not the one-element array that the declared type
`Map<string, TrackInfo[]>` (and the claim) promises.  Evaluated at the
claim's own example notification. -/
theorem c8_registry_value :
    lookupAssoc
      (onNotification initState
        { method := "stream-add",
          data := { rid := "r1", uid := "u2", mid := some "m1",
                    tracks := some [("audio", { id := some "t1", type := "audio" })] } }
       ).state.knownStreams "m1" =
      some [("audio", JsTrackVal.obj { id := some "t1", type := "audio" })] ∧
    lookupAssoc
      (onNotification initState
        { method := "stream-add",
          data := { rid := "r1", uid := "u2", mid := some "m1",
                    tracks := some [("audio", { id := some "t1", type := "audio" })] } }
       ).state.knownStreams "m1" ≠
      some [("audio", JsTrackVal.arr [{ id := some "t1", type := "audio" }])] ∧
    (onNotification initState
      { method := "stream-add",
        data := { rid := "r1", uid := "u2", mid := some "m1",
                  tracks := some [("audio", { id := some "t1", type := "audio" })] } }
     ).events = [Event.streamAdd (some "m1") "u2" none none] := by
  decide

/-- C5 (amended): `join(rid, info, token?)` sets the session's `rid` (and,
when a truthy — present and nonempty — token argument is supplied, the room
token) before the signaling request resolves; when the join request
rejects, the same error is propagated to the caller while `rid` and the
token remain set to the values assigned at the start of the call (no
rollback) and the registry, the subscribed-stream map and the local-stream
list are unchanged. -/
theorem c5_join_sets_rid :
    (∀ (s : ClientState) (rid : String) (token : Option String), (joinStart s rid token).rid = some rid) ∧
    (∀ (s : ClientState) (rid : String) (token : Option String), truthy token = true → (joinStart s rid token).roomToken = token) ∧
    (∀ (s : ClientState) (rid : String) (token : Option String) (outcome : Except JsError JoinResponse), (join s rid token outcome).state.rid = some rid) ∧
    (∀ (s : ClientState) (rid : String) (token : Option String) (e : JsError),
      join s rid token (Except.error e) = { state := joinStart s rid token, events := [], error := some e } ∧
      (join s rid token (Except.error e)).state.knownStreams = s.knownStreams ∧
      (join s rid token (Except.error e)).state.streams = s.streams ∧
      (join s rid token (Except.error e)).state.localStreams = s.localStreams) := by
  refine ⟨?_, ?_, ?_, ?_⟩
  · intro s rid token; rfl
  · intro s rid token ht; simp [joinStart, ht]
  · intro s rid token outcome
    cases outcome with
    | error e => rfl
    | ok resp =>
      cases hresp : resp.pubs with
      | none => simp [join, hresp, joinStart]
      | some pubs =>
        simp only [join, hresp]
        rw [(processPubs_frame (joinStart s rid token) pubs).1]
        rfl
  · intro s rid token e
    exact ⟨rfl, rfl, rfl, rfl⟩

/-- C5, witness: a supplied nonempty token is stored before the request
resolves. -/
theorem c5_join_sets_rid_witness :
    truthy (some "tk") = true ∧ (joinStart initState "r1" (some "tk")).roomToken = some "tk" :=
  ⟨by decide, c5_join_sets_rid.2.1 initState "r1" (some "tk") (by decide)⟩

/-- C5, counterexample to the claim as stated: a supplied empty-string
token is a falsy argument of `if (token)`, so the room token is not set
even though a token argument was supplied. -/
theorem c5_cex :
    (join initState "r1" (some "") (Except.ok { pubs := none })).state.roomToken = none ∧
    (join initState "r1" (some "") (Except.ok { pubs := none })).state.roomToken ≠ some "" := by
  decide

/-- C6 (amended): after `close()`, for every prior state, the local-stream
list, the subscribed-stream map and the registry are empty, all event
listeners are removed and the signaling peer is closed; during `close()`,
`close` is invoked exactly on those local and remote handles whose `mid`
is truthy (assigned and nonempty) — handles with an absent or empty `mid`
are skipped. -/
theorem c6_close (s : ClientState) :
    (close s).state = { s with localStreams := [], streams := [], knownStreams := [], listenersAttached := false, dispatchClosed := true } ∧
    (close s).state.localStreams = [] ∧
    (close s).state.streams = [] ∧
    (close s).state.knownStreams = [] ∧
    (close s).state.listenersAttached = false ∧
    (close s).state.dispatchClosed = true ∧
    (close s).closedLocal = s.localStreams.filter (fun l => truthy l.mid) ∧
    (close s).closedRemote = (s.streams.map Prod.snd).filter (fun r => truthy r.mid) ∧
    (∀ l : LocalStream, l ∈ (close s).closedLocal ↔ l ∈ s.localStreams ∧ truthy l.mid = true) ∧
    (∀ r : RemoteStream, r ∈ (close s).closedRemote ↔ r ∈ s.streams.map Prod.snd ∧ truthy r.mid = true) := by
  refine ⟨rfl, rfl, rfl, rfl, rfl, rfl, rfl, rfl, ?_, ?_⟩
  · intro l; simp [close, List.mem_filter]
  · intro r; simp [close, List.mem_filter]

/-- C6, witness: closing a concrete state with one negotiated and one
unnegotiated local handle closes exactly the negotiated one, and a
negotiated remote handle is closed. -/
theorem c6_close_witness :
    (close { rid := some "r1", localStreams := [{ handleId := 1, mid := some "a" }, { handleId := 2 }], streams := [("m1", { handleId := 3, mid := some "m1" })] }).closedLocal = [{ handleId := 1, mid := some "a" }] ∧
    ({ handleId := 3, mid := some "m1" } : RemoteStream) ∈ (close { rid := some "r1", localStreams := [{ handleId := 1, mid := some "a" }, { handleId := 2 }], streams := [("m1", { handleId := 3, mid := some "m1" })] }).closedRemote := by
  obtain ⟨h1, h2, h3, h4, h5, h6, h7, h8, h9, h10⟩ :=
    c6_close { rid := some "r1", localStreams := [{ handleId := 1, mid := some "a" }, { handleId := 2 }], streams := [("m1", { handleId := 3, mid := some "m1" })] }
  constructor
  · rw [h7]; decide
  · exact (h10 _).mpr ⟨by decide, by decide⟩

/-- C6, counterexample to the claim as stated: a local handle whose `mid`
is assigned but empty (`some ""`) is skipped by `close()` because
`if (localStream.mid)` is falsy on the empty string, contradicting
"close is invoked exactly on those handles whose mid is assigned". -/
theorem c6_cex :
    ({ localStreams := [{ handleId := 1, mid := some "" }] } : ClientState).localStreams = [{ handleId := 1, mid := some "" }] ∧
    ({ handleId := 1, mid := some "" } : LocalStream).mid ≠ none ∧
    (close { localStreams := [{ handleId := 1, mid := some "" }] }).closedLocal = [] := by
  decide

/-- C7 (confirmed): `streamsConnected()` returns true iff every local and
every remote handle reports an ICE connection state that is present and
not in the failed set {closed, disconnected, failed}; it is true when both
handle sets are empty, and `isStreamIceConnected(local)` returns false as
soon as any handle in the selected set reports a missing state or a state
in the failed set. -/
theorem c7_connectivity :
    (∀ st : Option IceState, iceOk st = true ↔ ∃ i, st = some i ∧ failedStatuses.contains i = false) ∧
    (∀ s : ClientState, streamsConnected s = true ↔ ((∀ l ∈ s.localStreams, iceOk l.iceState = true) ∧ (∀ q ∈ s.streams, iceOk q.2.iceState = true))) ∧
    (∀ s : ClientState, s.localStreams = [] → s.streams = [] → streamsConnected s = true) ∧
    (∀ (s : ClientState) (isLocal : Bool) (st : Option IceState), st ∈ selectedIce s isLocal → iceOk st = false → isStreamIceConnected s isLocal = false) := by
  refine ⟨?_, ?_, ?_, ?_⟩
  · intro st
    cases st with
    | none => simp [iceOk]
    | some i => simp [iceOk]
  · intro s
    have hmap : ∀ {α : Type} (f : α → Option IceState) (l : List α), (l.map f).all iceOk = l.all (fun a => iceOk (f a)) := by
      intro α f l
      induction l with
      | nil => rfl
      | cons a rest ih => simp [ih]
    have h1 : isStreamIceConnected s true = s.localStreams.all (fun l => iceOk l.iceState) := by
      rw [isStreamIceConnected_all]
      simp only [selectedIce, if_true]
      exact hmap LocalStream.iceState s.localStreams
    have h2 : isStreamIceConnected s false = s.streams.all (fun q => iceOk q.2.iceState) := by
      rw [isStreamIceConnected_all]
      simp only [selectedIce, Bool.false_eq_true, if_false]
      exact hmap (fun p => p.2.iceState) s.streams
    rw [streamsConnected, Bool.and_eq_true, h1, h2, List.all_eq_true, List.all_eq_true]
  · intro s hl hr
    simp [streamsConnected, isStreamIceConnected, selectedIce, hl, hr]
  · intro s isLocal st hmem hfalse
    rw [isStreamIceConnected_all]
    cases hall : (selectedIce s isLocal).all iceOk with
    | false => rfl
    | true =>
      rw [List.all_eq_true] at hall
      have := hall st hmem
      simp [hfalse] at this

/-- C7, witness: a state whose two handles report good states is
connected; a state with a handle reporting a missing state is not. -/
theorem c7_connectivity_witness :
    streamsConnected { rid := some "r1", localStreams := [{ handleId := 1, iceState := some IceState.connected }], streams := [("m1", { handleId := 2, iceState := some IceState.completed })] } = true ∧
    isStreamIceConnected { localStreams := [{ handleId := 3 }] } true = false := by
  constructor
  · exact (c7_connectivity.2.1 _).mpr ⟨by decide, by decide⟩
  · exact c7_connectivity.2.2.2 { localStreams := [{ handleId := 3 }] } true none (by decide) (by decide)

/-- C1 (amended): for every successful `join` response whose data contains
a `pubs` list in which every descriptor with a truthy `mid` also carries a
present `tracks` object, processing completes without error; each
descriptor with a truthy (present and nonempty) `mid` results in a
registry entry — the final registry is the in-order fold of
insert-or-overwrite of each such descriptor's track mapping — and in a
`stream-add` event with `(mid, uid, info, description)` taken from that
descriptor; descriptors with an absent or empty `mid` contribute no
registry step and no event. -/
theorem c1_join_pubs (s : ClientState) (rid : String) (token : Option String)
    (pubs : List MediaStreamInfo)
    (h : ∀ p ∈ pubs, truthy p.mid = true → p.tracks.isSome = true) :
    (join s rid token (Except.ok { pubs := some pubs })).error = none ∧
    (join s rid token (Except.ok { pubs := some pubs })).events = pubsEvents pubs ∧
    (join s rid token (Except.ok { pubs := some pubs })).state.knownStreams = pubsRegistry s.knownStreams pubs ∧
    (∀ p ∈ pubs, truthy p.mid = true →
      Event.streamAdd p.mid p.uid p.info p.description ∈ (join s rid token (Except.ok { pubs := some pubs })).events ∧
      (lookupAssoc (join s rid token (Except.ok { pubs := some pubs })).state.knownStreams (p.mid.getD "")).isSome = true) ∧
    (∀ p ∈ pubs, truthy p.mid = false →
      pubEvent p = none ∧ ∀ reg : Registry, pubStep reg p = reg) := by
  have hp := processPubs_ok (joinStart s rid token) pubs h
  have hj : join s rid token (Except.ok { pubs := some pubs }) =
      { state := { joinStart s rid token with knownStreams := pubsRegistry (joinStart s rid token).knownStreams pubs },
        events := pubsEvents pubs, error := none } := by
    simp only [join, hp]
  rw [hj]
  refine ⟨rfl, rfl, rfl, ?_, ?_⟩
  · intro p hmem ht
    constructor
    · exact List.mem_filterMap.mpr ⟨p, hmem, by simp [pubEvent, ht]⟩
    · exact pubsRegistry_mem (joinStart s rid token).knownStreams pubs p hmem ht
  · intro p hmem ht
    exact ⟨by simp [pubEvent, ht], fun reg => by simp [pubStep, ht]⟩

/-- C1, witness: a successful join response with one well-formed
descriptor yields its event and registry entry. -/
theorem c1_join_pubs_witness :
    (join initState "r1" none (Except.ok { pubs := some [{ rid := "r1", uid := "u2", mid := some "m1", tracks := some [("audio", { id := some "t1", type := "audio" })] }] })).error = none ∧
    (join initState "r1" none (Except.ok { pubs := some [{ rid := "r1", uid := "u2", mid := some "m1", tracks := some [("audio", { id := some "t1", type := "audio" })] }] })).events = pubsEvents [{ rid := "r1", uid := "u2", mid := some "m1", tracks := some [("audio", { id := some "t1", type := "audio" })] }] := by
  have h := c1_join_pubs initState "r1" none
    [{ rid := "r1", uid := "u2", mid := some "m1", tracks := some [("audio", { id := some "t1", type := "audio" })] }]
    (by decide)
  exact ⟨h.1, h.2.1⟩

/-- C1, counterexample to the claim as stated: both descriptors have a
defined `mid`, yet neither produces a registry entry or an event — the
first because its `mid` is the empty string (falsy for `if (mid)`), the
second because its undefined `tracks` makes `objToStrMap` throw, aborting
the loop and rejecting the join. -/
theorem c1_cex :
    ({ rid := "r1", uid := "uA", mid := some "", tracks := some [("audio", { id := some "tA", type := "audio" })] } : MediaStreamInfo).mid ≠ none ∧
    ({ rid := "r1", uid := "uB", mid := some "m1", tracks := none } : MediaStreamInfo).mid ≠ none ∧
    (join initState "r1" none (Except.ok { pubs := some [{ rid := "r1", uid := "uA", mid := some "", tracks := some [("audio", { id := some "tA", type := "audio" })] }, { rid := "r1", uid := "uB", mid := some "m1", tracks := none }] })).events = [] ∧
    lookupAssoc (join initState "r1" none (Except.ok { pubs := some [{ rid := "r1", uid := "uA", mid := some "", tracks := some [("audio", { id := some "tA", type := "audio" })] }, { rid := "r1", uid := "uB", mid := some "m1", tracks := none }] })).state.knownStreams "" = none ∧
    lookupAssoc (join initState "r1" none (Except.ok { pubs := some [{ rid := "r1", uid := "uA", mid := some "", tracks := some [("audio", { id := some "tA", type := "audio" })] }, { rid := "r1", uid := "uB", mid := some "m1", tracks := none }] })).state.knownStreams "m1" = none ∧
    (join initState "r1" none (Except.ok { pubs := some [{ rid := "r1", uid := "uA", mid := some "", tracks := some [("audio", { id := some "tA", type := "audio" })] }, { rid := "r1", uid := "uB", mid := some "m1", tracks := none }] })).error = some (JsError.typeError "Object.keys called on undefined") := by
  decide

/-- C10 (amended): the track-map conversion is not total on absent track
mappings.  A `stream-add` notification whose data has a truthy (present
and nonempty) `mid` but an undefined `tracks` field makes the handler
throw a `TypeError` while building the track map, before updating the
registry or emitting the `stream-add` event; likewise a `join` response
containing a `pubs` descriptor with a truthy `mid` and undefined `tracks`
(preceded only by well-formed descriptors) causes `join` to reject with
that `TypeError` even though the server accepted the request, with `rid`
already set, the descriptors before the faulting one fully processed and
every descriptor after it unprocessed. -/
theorem c10_undefined_tracks (s : ClientState) (d : MediaStreamInfo)
    (rid : String) (token : Option String)
    (pre : List MediaStreamInfo) (bad : MediaStreamInfo) (rest : List MediaStreamInfo)
    (hd1 : truthy d.mid = true) (hd2 : d.tracks = none)
    (hpre : ∀ p ∈ pre, truthy p.mid = true → p.tracks.isSome = true)
    (hb1 : truthy bad.mid = true) (hb2 : bad.tracks = none) :
    onNotification s { method := "stream-add", data := d } =
      { state := s, events := [], closedRemote := [],
        error := some (JsError.typeError "Object.keys called on undefined") } ∧
    (join s rid token (Except.ok { pubs := some (pre ++ bad :: rest) })).error = some (JsError.typeError "Object.keys called on undefined") ∧
    (join s rid token (Except.ok { pubs := some (pre ++ bad :: rest) })).state.rid = some rid ∧
    (join s rid token (Except.ok { pubs := some (pre ++ bad :: rest) })).events = pubsEvents pre ∧
    (join s rid token (Except.ok { pubs := some (pre ++ bad :: rest) })).state.knownStreams = pubsRegistry s.knownStreams pre := by
  have hn : onNotification s { method := "stream-add", data := d } =
      { state := s, events := [], closedRemote := [],
        error := some (JsError.typeError "Object.keys called on undefined") } := by
    rw [onNotification_stream_add]
    simp [streamAddStep, hd1, hd2, objToStrMap]
  have hp := processPubs_err (joinStart s rid token) pre bad rest hpre hb1 hb2
  have hj : join s rid token (Except.ok { pubs := some (pre ++ bad :: rest) }) =
      { state := { joinStart s rid token with knownStreams := pubsRegistry (joinStart s rid token).knownStreams pre },
        events := pubsEvents pre, error := some (JsError.typeError "Object.keys called on undefined") } := by
    simp only [join, hp]
  rw [hj]
  exact ⟨hn, rfl, rfl, rfl, rfl⟩

/-- C10, witness: a faulting descriptor after one well-formed descriptor
rejects the join, keeps the first descriptor's effects and drops the
rest; the notification form throws with no effects. -/
theorem c10_undefined_tracks_witness :
    onNotification initState { method := "stream-add", data := { rid := "r1", uid := "u1", mid := some "mx", tracks := none } } =
      { state := initState, events := [], closedRemote := [],
        error := some (JsError.typeError "Object.keys called on undefined") } ∧
    (join initState "r1" none (Except.ok { pubs := some ([{ rid := "r1", uid := "uA", mid := some "m1", tracks := some [("audio", { id := some "t1", type := "audio" })] }] ++ { rid := "r1", uid := "uB", mid := some "m2", tracks := none } :: [{ rid := "r1", uid := "uC", mid := some "m3", tracks := some [("video", { id := some "t3", type := "video" })] }]) })).error = some (JsError.typeError "Object.keys called on undefined") := by
  have h := c10_undefined_tracks initState
    { rid := "r1", uid := "u1", mid := some "mx", tracks := none } "r1" none
    [{ rid := "r1", uid := "uA", mid := some "m1", tracks := some [("audio", { id := some "t1", type := "audio" })] }]
    { rid := "r1", uid := "uB", mid := some "m2", tracks := none }
    [{ rid := "r1", uid := "uC", mid := some "m3", tracks := some [("video", { id := some "t3", type := "video" })] }]
    (by decide) (by decide) (by decide) (by decide) (by decide)
  exact ⟨h.1, h.2.1⟩

/-- C10, counterexample to the claim as stated: a `stream-add`
notification with a defined but empty `mid` and undefined `tracks` does
not throw — `if (mid)` is falsy on the empty string, so `objToStrMap` is
never reached and the event is emitted normally. -/
theorem c10_cex :
    ({ rid := "r1", uid := "u1", mid := some "", tracks := none } : MediaStreamInfo).mid ≠ none ∧
    ({ rid := "r1", uid := "u1", mid := some "", tracks := none } : MediaStreamInfo).tracks = none ∧
    (onNotification initState { method := "stream-add", data := { rid := "r1", uid := "u1", mid := some "", tracks := none } }).error = none ∧
    (onNotification initState { method := "stream-add", data := { rid := "r1", uid := "u1", mid := some "", tracks := none } }).events = [Event.streamAdd (some "") "u1" none none] := by
  decide

/-- C2 (amended): for every `mid`, `subscribe(mid)` rejects with the
precondition error ("You must join a room before subscribing.") when
`this.rid` is falsy — no room joined, or the joined room id is the empty
string; otherwise it rejects with the not-found error ("Subscribe mid is
not known.") when `mid` has no entry in the registry; otherwise it stores
the materialized `RemoteStream` in the subscribed-stream map keyed by
`mid` and returns it, invoking `close()` on nothing — so re-subscribing to
an already-subscribed `mid` overwrites the stored handle without closing
the previous one; and in every reachable state (operations taken as
atomic) every key of the subscribed-stream map is also a key of the
registry. -/
theorem c2_subscribe :
    (∀ (s : ClientState) (mid : String) (media : RemoteStream), truthy s.rid = false →
      subscribe s mid media = { state := s, result := Except.error (JsError.error "You must join a room before subscribing."), closedRemote := [] }) ∧
    (∀ (s : ClientState) (mid : String) (media : RemoteStream), truthy s.rid = true →
      lookupAssoc s.knownStreams mid = none →
      subscribe s mid media = { state := s, result := Except.error (JsError.error "Subscribe mid is not known."), closedRemote := [] }) ∧
    (∀ (s : ClientState) (mid : String) (media : RemoteStream) (tm : TrackMap), truthy s.rid = true →
      lookupAssoc s.knownStreams mid = some tm →
      subscribe s mid media = { state := { s with streams := setAssoc s.streams mid media }, result := Except.ok media, closedRemote := [] } ∧
      lookupAssoc (subscribe s mid media).state.streams mid = some media) ∧
    (∀ s : ClientState, Reachable s → streamsSubsetKnown s) := by
  refine ⟨?_, ?_, ?_, reachable_inv⟩
  · intro s mid media ht
    simp [subscribe, ht]
  · intro s mid media ht hlk
    simp [subscribe, ht, hlk]
  · intro s mid media tm ht hlk
    have key : subscribe s mid media = { state := { s with streams := setAssoc s.streams mid media }, result := Except.ok media, closedRemote := [] } := by
      simp [subscribe, ht, hlk]
    refine ⟨key, ?_⟩
    rw [key]
    exact lookupAssoc_set_self s.streams mid media

/-- C2, witness: after a reachable join-then-stream-add sequence,
subscribing to "m1" stores the handle, and the stored key is also a
registry key. -/
theorem c2_subscribe_witness :
    lookupAssoc (subscribe (onNotification (join initState "r1" none (Except.ok { pubs := none })).state { method := "stream-add", data := { rid := "r1", uid := "u2", mid := some "m1", tracks := some [("audio", { id := some "t1", type := "audio" })] } }).state "m1" { handleId := 5 }).state.streams "m1" = some { handleId := 5 } ∧
    (lookupAssoc (subscribe (onNotification (join initState "r1" none (Except.ok { pubs := none })).state { method := "stream-add", data := { rid := "r1", uid := "u2", mid := some "m1", tracks := some [("audio", { id := some "t1", type := "audio" })] } }).state "m1" { handleId := 5 }).state.knownStreams "m1").isSome = true := by
  have r2 : Reachable (onNotification (join initState "r1" none (Except.ok { pubs := none })).state { method := "stream-add", data := { rid := "r1", uid := "u2", mid := some "m1", tracks := some [("audio", { id := some "t1", type := "audio" })] } }).state :=
    Reachable.notifStep _ _ (Reachable.joinStep _ _ _ _ Reachable.init)
  have r3 : Reachable (subscribe (onNotification (join initState "r1" none (Except.ok { pubs := none })).state { method := "stream-add", data := { rid := "r1", uid := "u2", mid := some "m1", tracks := some [("audio", { id := some "t1", type := "audio" })] } }).state "m1" { handleId := 5 }).state :=
    Reachable.subscribeStep _ _ _ r2
  constructor
  · exact (c2_subscribe.2.2.1 _ "m1" { handleId := 5 } [("audio", JsTrackVal.obj { id := some "t1", type := "audio" })] (by decide) (by decide)).2
  · exact c2_subscribe.2.2.2 _ r3 "m1" (by decide)

/-- C2, counterexample to the claim as stated: after joining the room
whose id is the empty string, `rid` is defined (not undefined) and "m1"
has no registry entry, yet `subscribe("m1")` rejects with the
precondition error rather than the not-found error the claim's cascade
requires. -/
theorem c2_cex :
    (join initState "" none (Except.ok { pubs := none })).state.rid = some "" ∧
    (join initState "" none (Except.ok { pubs := none })).state.rid ≠ none ∧
    lookupAssoc (join initState "" none (Except.ok { pubs := none })).state.knownStreams "m1" = none ∧
    (subscribe (join initState "" none (Except.ok { pubs := none })).state "m1" { handleId := 5 }).result = Except.error (JsError.error "You must join a room before subscribing.") ∧
    (subscribe (join initState "" none (Except.ok { pubs := none })).state "m1" { handleId := 5 }).result ≠ Except.error (JsError.error "Subscribe mid is not known.") := by
  decide
